import Mathlib

/-!
Shallow embedding of the command-invocation gatekeeper of ritchie-cli,
translated from `src/pkg/cmd/root.go`.

External collaborators (the directory ensurer, the tutorial finder, the
remote stable-version endpoint and the colour functions of the prompt
package) are modelled as function-valued parameters.  Observable side
effects of a hook (directory creation, the initialization-marker check,
printed messages, `os.Exit`, the stable-version HTTP fetch, the tutorial
lookup, running the command body) are recorded in an explicit event trace,
so that "this call never happens" claims become statements about traces.
-/

namespace Ritchie

/-- Result of `strings.Contains`: auxiliary list-of-characters scan. -/
def containsSubAux (pat : List Char) : List Char → Bool
  | [] => pat.isEmpty
  | c :: rest => pat.isPrefixOf (c :: rest) || containsSubAux pat rest

/-- Go `strings.Contains s pat`: `pat` occurs as a contiguous substring of `s`. -/
def strContains (s pat : String) : Bool :=
  containsSubAux pat.toList s.toList

/-- Go `path.Join`, restricted to the dot-free, duplicate-slash-free paths the
program builds: empty elements are dropped and the rest joined with "/"
(`path.Clean` has nothing further to do on such inputs). -/
def pathJoin (elems : List String) : String :=
  match elems.filter (fun e => !(e == "")) with
  | [] => ""
  | e :: es => es.foldl (fun acc x => acc ++ "/" ++ x) e

/-- Constant `cmdUse` of root.go. -/
def cmdUse : String := "rit"

/-- Package variable `MsgInit` of root.go. -/
def MsgInit : String := "To start using rit, you need to initialize rit first.\nCommand: rit init"

/-- Constant `latestVersionMsg` of root.go, applied to its one argument. -/
def latestVersionMsgOf (latest : String) : String :=
  "Latest available version: " ++ latest

/-- Constant `versionMsg` of root.go (plain version format), applied. -/
def versionMsgOf (v bd bw : String) : String :=
  v ++ "\n  Build date: " ++ bd ++ "\n  Built with: " ++ bw ++ "\n"

/-- Constant `versionMsgWithLatestVersion` of root.go (with-notice format), applied. -/
def versionMsgWithLatestVersionOf (v latest bd bw : String) : String :=
  v ++ "\n  " ++ latest ++ "\n  Build date: " ++ bd ++ "\n  Built with: " ++ bw ++ "\n"

/-- Package variable `whitelist` of root.go: command paths exempt from the
initialization gate. -/
def whitelist : List String :=
  [cmdUse,
   cmdUse ++ " help",
   cmdUse ++ " completion zsh",
   cmdUse ++ " completion bash",
   cmdUse ++ " completion fish",
   cmdUse ++ " completion powershell",
   cmdUse ++ " init",
   cmdUse ++ " upgrade"]

/-- Package variable `upgradeWhitelist` of root.go: the single command path for
which the upgrade notice runs. -/
def upgradeWhitelist : List String := [cmdUse]

/-- Modelled from the spec: constant `tutorialStatusOn` is declared elsewhere in
package cmd (not under src/); the spec calls the display-triggering value of the
tri-state tutorial flag "on". -/
def tutorialStatusOn : String := "on"

/-- Constant `tagTutorial` of `tutorialRit` in root.go. -/
def tagTutorial : String := "\n[TUTORIAL]"

/-- Constant `MessageTitle` of `tutorialRit` in root.go. -/
def messageTitle : String := "To initialize the ritchie:"

/-- Constant `MessageBody` of `tutorialRit` in root.go. -/
def messageBody : String := " ∙ Run \"rit init\"\n"

/-- Interface `stream.DirCreateChecker`: `Create` returns `some errMsg` on
failure and `none` on success; `dirExists` is `Exists`. -/
structure DirCreateChecker where
  create : String → Option String
  dirExists : String → Bool

/-- Struct `rtutorial.TutorialHolder`: the field `Current` read by the post-hook. -/
structure TutorialHolder where
  current : String

/-- Interface `rtutorial.Finder`: `Find() -> (TutorialHolder, error)`. -/
structure TutorialFinder where
  find : Except String TutorialHolder

/-- Struct `rootCmd` of root.go. -/
structure RootCmd where
  ritchieHome : String
  dir : DirCreateChecker
  rt : TutorialFinder

/-- Observable effects of one invocation, recorded in order. -/
inductive Event where
  | createDir (p : String)
  | checkInit (p : String)
  | printOut (s : String)
  | exitProc (code : Nat)
  | stableFetch
  | warn (s : String)
  | info (s : String)
  | tutorialFind
  | runBody
  deriving DecidableEq, Repr

/-- Outcome of the pre-run hook: a returned error, a process exit, or success. -/
inductive HookResult where
  | err (e : String)
  | exit (code : Nat)
  | ok
  deriving DecidableEq, Repr

/-- Outcome of a whole invocation. -/
inductive RunOutcome where
  | exited (code : Nat)
  | finished (err : Option String)
  deriving DecidableEq, Repr

/-- Function `isWhitelist` of root.go: `sliceutil.Contains(whitelist, cmd.CommandPath())`. -/
def isWhitelist (wl : List String) (cmdPath : String) : Bool :=
  wl.contains cmdPath

/-- Function `isCompleteCmd` of root.go: the command path contains "__complete". -/
def isCompleteCmd (cmdPath : String) : Bool :=
  strContains cmdPath "__complete"

/-- Local `commonsRepoPath` of `ritchieIsInitialized`: `path.Join(home, "repos", "commons")`. -/
def commonsRepoPath (home : String) : String :=
  pathJoin [home, "repos", "commons"]

/-- Method `ritchieIsInitialized` of root.go: the marker directory
`{home}/repos/commons` exists. -/
def RootCmd.ritchieIsInitialized (ro : RootCmd) : Bool :=
  ro.dir.dirExists (commonsRepoPath ro.ritchieHome)

/-- Method `PreRunFunc` of root.go, with its trace of effects: ensure the home
directory (abort on failure), skip the gate for whitelisted or completion
commands, otherwise check the marker and on absence print `MsgInit` and
`os.Exit(0)`. -/
def RootCmd.preRun (ro : RootCmd) (cmdPath : String) : HookResult × List Event :=
  match ro.dir.create ro.ritchieHome with
  | some e => (HookResult.err e, [Event.createDir ro.ritchieHome])
  | none =>
    if isWhitelist whitelist cmdPath || isCompleteCmd cmdPath then
      (HookResult.ok, [Event.createDir ro.ritchieHome])
    else if !ro.ritchieIsInitialized then
      (HookResult.exit 0,
        [Event.createDir ro.ritchieHome,
         Event.checkInit (commonsRepoPath ro.ritchieHome),
         Event.printOut MsgInit,
         Event.exitProc 0])
    else
      (HookResult.ok,
        [Event.createDir ro.ritchieHome,
         Event.checkInit (commonsRepoPath ro.ritchieHome)])

/-- Modelled from the spec: `version.VerifyNewVersion(resolver, current)` lives
in `pkg/version`, which is not under src/.  Per the spec, when resolution
succeeds and the stable version differs (plain string inequality) it produces a
message embedding the latest version; when it matches or resolution fails it
produces the version-without-notice message (build metadata only), and no error
is ever returned.  The resolver outcome is the `stable` argument; the ambient
build metadata are the `bd`/`bw` arguments. -/
def VerifyNewVersion (stable : Except String String) (current bd bw : String) : String :=
  match stable with
  | Except.ok stableVersion =>
    if stableVersion != current then latestVersionMsgOf stableVersion
    else versionMsgOf current bd bw
  | Except.error _ => versionMsgOf current bd bw

/-- Function `verifyNewVersion` of root.go: only for command paths in
`upgradeWhitelist` is the resolver constructed, the stable version fetched and
the resulting message printed as a warning.  The fetch outcome is the `stable`
argument. -/
def verifyNewVersion (stable : Except String String) (vers bd bw cmdPath : String) : List Event :=
  if isWhitelist upgradeWhitelist cmdPath then
    [Event.stableFetch, Event.warn (VerifyNewVersion stable vers bd bw)]
  else
    []

/-- Function `tutorialRit` of root.go: print the tutorial banner iff the
tutorial status equals `tutorialStatusOn`. -/
def tutorialRit (tutorialStatus : String) : List Event :=
  if tutorialStatus == tutorialStatusOn then
    [Event.info tagTutorial, Event.info messageTitle, Event.printOut messageBody]
  else
    []

/-- Method `PostRunFunc` of root.go: run the upgrade-notice check, then, when
not initialized, query the tutorial finder (propagating its error) and maybe
print the banner.  The first component is the returned error, if any. -/
def RootCmd.postRun (ro : RootCmd) (stable : Except String String)
    (vers bd bw cmdPath : String) : Option String × List Event :=
  let vEvents := verifyNewVersion stable vers bd bw cmdPath
  if !ro.ritchieIsInitialized then
    match ro.rt.find with
    | Except.error e => (some e, vEvents ++ [Event.tutorialFind])
    | Except.ok holder => (none, vEvents ++ [Event.tutorialFind] ++ tutorialRit holder.current)
  else
    (none, vEvents)

/-- Function `versionFlag` of root.go: one stable-version fetch; on success
with a version differing from the running one, the with-notice format embedding
the yellow-coloured latest-version line; otherwise the plain format.
`yellow` models `prompt.Yellow` (pkg/prompt, not under src/). -/
def versionFlag (yellow : String → String) (stable : Except String String)
    (vers bd bw : String) : String × List Event :=
  match stable with
  | Except.ok latestVersion =>
    if latestVersion != vers then
      (versionMsgWithLatestVersionOf vers (yellow (latestVersionMsgOf latestVersion)) bd bw,
       [Event.stableFetch])
    else
      (versionMsgOf vers bd bw, [Event.stableFetch])
  | Except.error _ => (versionMsgOf vers bd bw, [Event.stableFetch])

/-- One whole invocation under cobra's semantics: the pre-run hook first (a
returned error or an `os.Exit` prevents the body), then the command body (an
error prevents the post-run hook), then the post-run hook. -/
def runInvocation (ro : RootCmd) (stable : Except String String)
    (vers bd bw cmdPath : String) (body : Except String Unit) : RunOutcome × List Event :=
  match ro.preRun cmdPath with
  | (HookResult.err e, tr) => (RunOutcome.finished (some e), tr)
  | (HookResult.exit c, tr) => (RunOutcome.exited c, tr)
  | (HookResult.ok, tr) =>
    match body with
    | Except.error e => (RunOutcome.finished (some e), tr ++ [Event.runBody])
    | Except.ok _ =>
      match ro.postRun stable vers bd bw cmdPath with
      | (some e, tr2) => (RunOutcome.finished (some e), tr ++ [Event.runBody] ++ tr2)
      | (none, tr2) => (RunOutcome.finished none, tr ++ [Event.runBody] ++ tr2)

end Ritchie

namespace Ritchie

/-- Sample directory ensurer whose creation always succeeds and on whose
filesystem no path exists. -/
def sampleDirOk : DirCreateChecker := ⟨fun _ => none, fun _ => false⟩

/-- Sample directory ensurer whose creation always fails. -/
def sampleDirErr : DirCreateChecker := ⟨fun _ => some "mkdir failed", fun _ => false⟩

/-- Sample directory ensurer on whose filesystem every path exists. -/
def sampleDirInit : DirCreateChecker := ⟨fun _ => none, fun _ => true⟩

/-- Sample tutorial finder answering "off" without error. -/
def sampleFinder : TutorialFinder := ⟨Except.ok ⟨"off"⟩⟩

/-- Sample root command over an uninitialized home. -/
def sampleRoot : RootCmd := ⟨"/home/user/.rit", sampleDirOk, sampleFinder⟩

/-- Sample root command whose home directory cannot be created. -/
def sampleRootErr : RootCmd := ⟨"/home/user/.rit", sampleDirErr, sampleFinder⟩

/-- Sample root command over an initialized home. -/
def sampleRootInit : RootCmd := ⟨"/home/user/.rit", sampleDirInit, sampleFinder⟩

/-- Helper: for a non-empty home directory, the marker path is literally
`{home}/repos/commons`. -/
theorem commonsRepoPath_eq (home : String) (h : home ≠ "") :
    commonsRepoPath home = home ++ "/repos/commons" := by
  unfold commonsRepoPath pathJoin
  have hb : (home == "") = false := by simpa using h
  simp [List.filter, hb, String.append_assoc]

/-- Helper: pre-hook equation for a gated command over an uninitialized home. -/
theorem preRun_eq_uninit (ro : RootCmd) (cp : String)
    (hex : (isWhitelist whitelist cp || isCompleteCmd cp) = false)
    (hc : ro.dir.create ro.ritchieHome = none)
    (hin : ro.ritchieIsInitialized = false) :
    ro.preRun cp =
      (HookResult.exit 0,
        [Event.createDir ro.ritchieHome, Event.checkInit (commonsRepoPath ro.ritchieHome),
         Event.printOut MsgInit, Event.exitProc 0]) := by
  unfold RootCmd.preRun
  rw [hc]
  simp [hex, hin]

/-- Helper: pre-hook equation for a gated command over an initialized home. -/
theorem preRun_eq_init (ro : RootCmd) (cp : String)
    (hex : (isWhitelist whitelist cp || isCompleteCmd cp) = false)
    (hc : ro.dir.create ro.ritchieHome = none)
    (hin : ro.ritchieIsInitialized = true) :
    ro.preRun cp =
      (HookResult.ok,
        [Event.createDir ro.ritchieHome, Event.checkInit (commonsRepoPath ro.ritchieHome)]) := by
  unfold RootCmd.preRun
  rw [hc]
  simp [hex, hin]

/-- Helper: post-hook equation over an initialized home. -/
theorem postRun_eq_init (ro : RootCmd) (stable : Except String String)
    (vers bd bw cp : String) (hin : ro.ritchieIsInitialized = true) :
    ro.postRun stable vers bd bw cp = (none, verifyNewVersion stable vers bd bw cp) := by
  unfold RootCmd.postRun
  simp [hin]

/-- Helper: the upgrade-notice check never queries the tutorial finder. -/
theorem tutorialFind_not_mem_verify (stable : Except String String) (vers bd bw cp : String) :
    Event.tutorialFind ∉ verifyNewVersion stable vers bd bw cp := by
  unfold verifyNewVersion
  split <;> simp

/-- Helper: the upgrade-notice check fetches the stable version exactly for the
bare root command path. -/
theorem stableFetch_mem_verify (stable : Except String String) (vers bd bw cp : String) :
    Event.stableFetch ∈ verifyNewVersion stable vers bd bw cp ↔ cp = cmdUse := by
  unfold verifyNewVersion
  by_cases hcp : cp = cmdUse
  · simp [hcp, isWhitelist, upgradeWhitelist]
  · simp [hcp, isWhitelist, upgradeWhitelist]

/-- Helper: the tutorial banner never fetches the stable version. -/
theorem stableFetch_not_mem_tutorialRit (s : String) :
    Event.stableFetch ∉ tutorialRit s := by
  unfold tutorialRit
  split <;> simp

/-- C1: for a command whose path is in the init-whitelist or contains the
completion marker, the pre-hook (after the home directory is ensured) returns
success, never performs the initialization check and never exits the process. -/
theorem preRun_exempt_skips_gate (ro : RootCmd) (cp : String)
    (hex : (isWhitelist whitelist cp || isCompleteCmd cp) = true)
    (hc : ro.dir.create ro.ritchieHome = none) :
    ro.preRun cp = (HookResult.ok, [Event.createDir ro.ritchieHome]) ∧
    (∀ p, Event.checkInit p ∉ (ro.preRun cp).2) ∧
    (∀ c, Event.exitProc c ∉ (ro.preRun cp).2) := by
  have hpre : ro.preRun cp = (HookResult.ok, [Event.createDir ro.ritchieHome]) := by
    unfold RootCmd.preRun
    rw [hc]
    simp [hex]
  refine ⟨hpre, ?_, ?_⟩ <;> intro x <;> rw [hpre] <;> simp

/-- Witness for C1 at the whitelisted path "rit help" over an uninitialized home. -/
theorem preRun_exempt_skips_gate_witness :
    sampleRoot.preRun "rit help" = (HookResult.ok, [Event.createDir sampleRoot.ritchieHome]) ∧
    (∀ p, Event.checkInit p ∉ (sampleRoot.preRun "rit help").2) ∧
    (∀ c, Event.exitProc c ∉ (sampleRoot.preRun "rit help").2) :=
  preRun_exempt_skips_gate sampleRoot "rit help" (by decide) rfl

/-- C2: for a command neither whitelisted nor a completion invocation, over an
absent initialization marker, the whole invocation prints the init message and
exits the process with status 0, and the command body never runs. -/
theorem preRun_blocks_uninitialized (ro : RootCmd) (stable : Except String String)
    (vers bd bw cp : String) (body : Except String Unit)
    (hex : (isWhitelist whitelist cp || isCompleteCmd cp) = false)
    (hc : ro.dir.create ro.ritchieHome = none)
    (hinit : ro.ritchieIsInitialized = false) :
    runInvocation ro stable vers bd bw cp body =
      (RunOutcome.exited 0,
        [Event.createDir ro.ritchieHome, Event.checkInit (commonsRepoPath ro.ritchieHome),
         Event.printOut MsgInit, Event.exitProc 0]) ∧
    Event.runBody ∉ (runInvocation ro stable vers bd bw cp body).2 := by
  have hpre := preRun_eq_uninit ro cp hex hc hinit
  have hrun : runInvocation ro stable vers bd bw cp body =
      (RunOutcome.exited 0,
        [Event.createDir ro.ritchieHome, Event.checkInit (commonsRepoPath ro.ritchieHome),
         Event.printOut MsgInit, Event.exitProc 0]) := by
    unfold runInvocation
    rw [hpre]
  refine ⟨hrun, ?_⟩
  rw [hrun]
  simp

/-- Witness for C2 at the gated path "rit add repo" over an uninitialized home. -/
theorem preRun_blocks_uninitialized_witness :
    runInvocation sampleRoot (Except.error "no network") "dev" "unknown" "go1.14"
        "rit add repo" (Except.ok ()) =
      (RunOutcome.exited 0,
        [Event.createDir sampleRoot.ritchieHome,
         Event.checkInit (commonsRepoPath sampleRoot.ritchieHome),
         Event.printOut MsgInit, Event.exitProc 0]) ∧
    Event.runBody ∉ (runInvocation sampleRoot (Except.error "no network") "dev" "unknown"
      "go1.14" "rit add repo" (Except.ok ())).2 :=
  preRun_blocks_uninitialized sampleRoot (Except.error "no network") "dev" "unknown" "go1.14"
    "rit add repo" (Except.ok ()) (by decide) rfl rfl

/-- C3: the home-directory creation is the first effect of the pre-hook for
every command path, and when it fails the pre-hook returns that error, the
initialization check is never performed and the command body never runs. -/
theorem preRun_create_failure_aborts (ro : RootCmd) (stable : Except String String)
    (vers bd bw cp : String) (body : Except String Unit) (e : String)
    (hc : ro.dir.create ro.ritchieHome = some e) :
    (∀ (ro₂ : RootCmd) (cp₂ : String),
      (ro₂.preRun cp₂).2.head? = some (Event.createDir ro₂.ritchieHome)) ∧
    ro.preRun cp = (HookResult.err e, [Event.createDir ro.ritchieHome]) ∧
    (∀ p, Event.checkInit p ∉ (ro.preRun cp).2) ∧
    (runInvocation ro stable vers bd bw cp body).1 = RunOutcome.finished (some e) ∧
    Event.runBody ∉ (runInvocation ro stable vers bd bw cp body).2 := by
  have hpre : ro.preRun cp = (HookResult.err e, [Event.createDir ro.ritchieHome]) := by
    unfold RootCmd.preRun
    rw [hc]
  have hrun : runInvocation ro stable vers bd bw cp body =
      (RunOutcome.finished (some e), [Event.createDir ro.ritchieHome]) := by
    unfold runInvocation
    rw [hpre]
  refine ⟨?_, hpre, ?_, ?_, ?_⟩
  · intro ro₂ cp₂
    unfold RootCmd.preRun
    cases h2 : ro₂.dir.create ro₂.ritchieHome
    · simp
      split
      · simp
      · split <;> simp
    · simp
  · intro p
    rw [hpre]
    simp
  · rw [hrun]
  · rw [hrun]
    simp

/-- Witness for C3 at a home whose creation fails with "mkdir failed". -/
theorem preRun_create_failure_aborts_witness :
    (∀ (ro₂ : RootCmd) (cp₂ : String),
      (ro₂.preRun cp₂).2.head? = some (Event.createDir ro₂.ritchieHome)) ∧
    sampleRootErr.preRun "rit init" =
      (HookResult.err "mkdir failed", [Event.createDir sampleRootErr.ritchieHome]) ∧
    (∀ p, Event.checkInit p ∉ (sampleRootErr.preRun "rit init").2) ∧
    (runInvocation sampleRootErr (Except.error "no network") "dev" "unknown" "go1.14"
      "rit init" (Except.ok ())).1 = RunOutcome.finished (some "mkdir failed") ∧
    Event.runBody ∉ (runInvocation sampleRootErr (Except.error "no network") "dev" "unknown"
      "go1.14" "rit init" (Except.ok ())).2 :=
  preRun_create_failure_aborts sampleRootErr (Except.error "no network") "dev" "unknown"
    "go1.14" "rit init" (Except.ok ()) "mkdir failed" rfl

/-- C4: over a non-empty home directory, `ritchieIsInitialized` holds iff the
path `{homeDir}/repos/commons` exists on the filesystem, and its answer depends
on nothing but the existence of that one path. -/
theorem ritchieIsInitialized_marker (ro : RootCmd) (h : ro.ritchieHome ≠ "") :
    (ro.ritchieIsInitialized = true ↔
      ro.dir.dirExists (ro.ritchieHome ++ "/repos/commons") = true) ∧
    (∀ ro₂ : RootCmd, ro₂.ritchieHome = ro.ritchieHome →
      ro₂.dir.dirExists (ro.ritchieHome ++ "/repos/commons") =
        ro.dir.dirExists (ro.ritchieHome ++ "/repos/commons") →
      ro₂.ritchieIsInitialized = ro.ritchieIsInitialized) := by
  constructor
  · unfold RootCmd.ritchieIsInitialized
    rw [commonsRepoPath_eq _ h]
  · intro ro₂ hh he
    unfold RootCmd.ritchieIsInitialized
    rw [hh, commonsRepoPath_eq _ h, he]

/-- Witness for C4 at an initialized sample home. -/
theorem ritchieIsInitialized_marker_witness :
    (sampleRootInit.ritchieIsInitialized = true ↔
      sampleRootInit.dir.dirExists (sampleRootInit.ritchieHome ++ "/repos/commons") = true) ∧
    (∀ ro₂ : RootCmd, ro₂.ritchieHome = sampleRootInit.ritchieHome →
      ro₂.dir.dirExists (sampleRootInit.ritchieHome ++ "/repos/commons") =
        sampleRootInit.dir.dirExists (sampleRootInit.ritchieHome ++ "/repos/commons") →
      ro₂.ritchieIsInitialized = sampleRootInit.ritchieIsInitialized) :=
  ritchieIsInitialized_marker sampleRootInit (by decide)

/-- C5: the post-hook fetches the stable version (constructing the resolver)
exactly when the command path equals the bare root path "rit". -/
theorem postRun_fetch_iff_bare_root (ro : RootCmd) (stable : Except String String)
    (vers bd bw cp : String) :
    Event.stableFetch ∈ (ro.postRun stable vers bd bw cp).2 ↔ cp = cmdUse := by
  unfold RootCmd.postRun
  cases hin : ro.ritchieIsInitialized <;> cases hf : ro.rt.find <;>
    simp [hin, hf, stableFetch_mem_verify, stableFetch_not_mem_tutorialRit]

/-- C6: the post-hook's error result is independent of the version-check
outcome, and on a resolution failure the spec-modelled `VerifyNewVersion`
produces the plain no-notice message. -/
theorem postRun_version_failure_soft (ro : RootCmd) (stable stable₂ : Except String String)
    (vers bd bw cp e : String) (herr : stable = Except.error e) :
    (ro.postRun stable vers bd bw cp).1 = (ro.postRun stable₂ vers bd bw cp).1 ∧
    VerifyNewVersion stable vers bd bw = versionMsgOf vers bd bw := by
  constructor
  · unfold RootCmd.postRun
    cases hin : ro.ritchieIsInitialized <;> cases hf : ro.rt.find <;> simp [hin, hf]
  · rw [herr]
    rfl

/-- Witness for C6 at a timed-out fetch against a successful one. -/
theorem postRun_version_failure_soft_witness :
    (sampleRoot.postRun (Except.error "timeout") "dev" "unknown" "go1.14" "rit").1 =
      (sampleRoot.postRun (Except.ok "2.0.0") "dev" "unknown" "go1.14" "rit").1 ∧
    VerifyNewVersion (Except.error "timeout") "dev" "unknown" "go1.14" =
      versionMsgOf "dev" "unknown" "go1.14" :=
  postRun_version_failure_soft sampleRoot (Except.error "timeout") (Except.ok "2.0.0")
    "dev" "unknown" "go1.14" "rit" "timeout" rfl

/-- C7: the post-hook returns an error exactly when the tool is not initialized
and the tutorial finder fails, and then it returns that exact error. -/
theorem postRun_error_iff_tutorial_failure (ro : RootCmd) (stable : Except String String)
    (vers bd bw cp e : String) :
    (ro.postRun stable vers bd bw cp).1 = some e ↔
      (ro.ritchieIsInitialized = false ∧ ro.rt.find = Except.error e) := by
  unfold RootCmd.postRun
  cases hin : ro.ritchieIsInitialized <;> cases hf : ro.rt.find <;> simp [hin, hf]

/-- C8: the version-flag text is one fetch; on success with a differing version
it is the with-notice format embedding the remote version, and on an error or
an equal version it is the plain format with local build metadata. -/
theorem versionFlag_spec (yellow : String → String) (vers bd bw l err : String)
    (hne : l ≠ vers) :
    (versionFlag yellow (Except.ok l) vers bd bw).1 =
      versionMsgWithLatestVersionOf vers (yellow (latestVersionMsgOf l)) bd bw ∧
    (versionFlag yellow (Except.error err) vers bd bw).1 = versionMsgOf vers bd bw ∧
    (versionFlag yellow (Except.ok vers) vers bd bw).1 = versionMsgOf vers bd bw ∧
    (∀ s : Except String String, (versionFlag yellow s vers bd bw).2 = [Event.stableFetch]) := by
  refine ⟨?_, rfl, ?_, ?_⟩
  · unfold versionFlag
    simp [hne]
  · unfold versionFlag
    simp
  · intro s
    unfold versionFlag
    cases s
    · rfl
    · simp only []
      split <;> rfl

/-- Witness for C8 at remote version "2.0.0" against running version "dev". -/
theorem versionFlag_spec_witness :
    (versionFlag id (Except.ok "2.0.0") "dev" "unknown" "go1.14").1 =
      versionMsgWithLatestVersionOf "dev" (id (latestVersionMsgOf "2.0.0")) "unknown" "go1.14" ∧
    (versionFlag id (Except.error "timeout") "dev" "unknown" "go1.14").1 =
      versionMsgOf "dev" "unknown" "go1.14" ∧
    (versionFlag id (Except.ok "dev") "dev" "unknown" "go1.14").1 =
      versionMsgOf "dev" "unknown" "go1.14" ∧
    (∀ s : Except String String,
      (versionFlag id s "dev" "unknown" "go1.14").2 = [Event.stableFetch]) :=
  versionFlag_spec id "dev" "unknown" "go1.14" "2.0.0" "timeout" (by decide)

/-- C9: the init-whitelist contains the bare root path "rit" itself, so an
invocation with no subcommand never performs the initialization check and
never exits the process from the pre-hook, whatever the filesystem state. -/
theorem whitelist_contains_bare_root :
    cmdUse ∈ whitelist ∧
    ∀ ro : RootCmd,
      (∀ p, Event.checkInit p ∉ (ro.preRun cmdUse).2) ∧
      (∀ c, Event.exitProc c ∉ (ro.preRun cmdUse).2) ∧
      (∀ c, (ro.preRun cmdUse).1 ≠ HookResult.exit c) := by
  have hw : isWhitelist whitelist cmdUse = true := by decide
  refine ⟨by decide, fun ro => ?_⟩
  unfold RootCmd.preRun
  cases hc : ro.dir.create ro.ritchieHome <;> simp [hw]

/-- C10: the tutorial finder is only ever queried during an invocation whose
command path was exempt from the initialization gate (whitelisted or a
completion invocation). -/
theorem tutorial_only_for_exempt (ro : RootCmd) (stable : Except String String)
    (vers bd bw cp : String) (body : Except String Unit)
    (h : Event.tutorialFind ∈ (runInvocation ro stable vers bd bw cp body).2) :
    (isWhitelist whitelist cp || isCompleteCmd cp) = true := by
  by_cases hex : (isWhitelist whitelist cp || isCompleteCmd cp) = true
  · exact hex
  exfalso
  have hex' : (isWhitelist whitelist cp || isCompleteCmd cp) = false := by
    simpa using hex
  cases hc : ro.dir.create ro.ritchieHome with
  | some e =>
    have hpre : ro.preRun cp = (HookResult.err e, [Event.createDir ro.ritchieHome]) := by
      unfold RootCmd.preRun
      rw [hc]
    unfold runInvocation at h
    rw [hpre] at h
    simp at h
  | none =>
    cases hin : ro.ritchieIsInitialized with
    | false =>
      have hpre := preRun_eq_uninit ro cp hex' hc hin
      unfold runInvocation at h
      rw [hpre] at h
      simp at h
    | true =>
      have hpre := preRun_eq_init ro cp hex' hc hin
      unfold runInvocation at h
      rw [hpre] at h
      cases body with
      | error e => simp at h
      | ok u =>
        have hpost := postRun_eq_init ro stable vers bd bw cp hin
        rw [hpost] at h
        simp [tutorialFind_not_mem_verify] at h

/-- Witness for C10: a run of the exempt path "rit init" over an uninitialized
home does query the tutorial finder. -/
theorem tutorial_only_for_exempt_witness :
    (isWhitelist whitelist "rit init" || isCompleteCmd "rit init") = true :=
  tutorial_only_for_exempt sampleRoot (Except.error "no network") "dev" "unknown" "go1.14"
    "rit init" (Except.ok ()) (by decide)

end Ritchie
